import Mathlib

/-!
Shallow embedding of the Grafana OpenWeather datasource backend
(pkg/plugin/datasource.go and pkg/plugin/struct.go).

The HTTP environment is modelled as a function from the outbound request to
an outcome (network error, or a status/body pair together with the result of
JSON-decoding the body).  Pure Go functions become Lean functions; Go errors
become an inductive error type whose constructors correspond to the
`fmt.Errorf` call sites, with `errMessage` mapping each constructor to the
Go message text.
-/

set_option linter.unusedVariables false

/-- Query model parsed from the query JSON (struct.go, `queryModel`). -/
structure queryModel where
  City : String
  Format : String
  Metric : String
  Units : String
deriving Repr

/-- `main` block of a forecast entry (struct.go, `MainWeather`). -/
structure MainWeather where
  Temp : Float
  FeelsLike : Float
  TempMin : Float
  TempMax : Float
  Pressure : Float
  SeaLevel : Float
  GrndLevel : Float
  Humidity : Float
  TempKf : Float
deriving Repr

/-- One element of a forecast entry's `weather` array (struct.go, `Weather`). -/
structure Weather where
  ID : Int
  Main : String
  Description : String
  Icon : String
deriving Repr

/-- `clouds` block (struct.go, `Clouds`). -/
structure Clouds where
  All : Float
deriving Repr

/-- `wind` block (struct.go, `Wind`). -/
structure Wind where
  Speed : Float
  Deg : Float
  Gust : Float
deriving Repr

/-- `rain` block; in Go a nullable pointer (struct.go, `Rain`). -/
structure Rain where
  ThreeH : Float
deriving Repr

/-- `snow` block; in Go a nullable pointer (struct.go, `Snow`). -/
structure Snow where
  ThreeH : Float
deriving Repr

/-- `sys` block (struct.go, `Sys`). -/
structure Sys where
  Pod : String
deriving Repr

/-- City coordinates (struct.go, `Coord`). -/
structure Coord where
  Lat : Float
  Lon : Float
deriving Repr

/-- City metadata of the response (struct.go, `CityInfo`). -/
structure CityInfo where
  ID : Int
  Name : String
  Coord : Coord
  Country : String
  Population : Int
  Timezone : Int
  Sunrise : Int
  Sunset : Int
deriving Repr

/-- One timestamped forecast record (struct.go, `ForecastItem`).
Go's nil-able `*Rain` and `*Snow` pointers become `Option`. -/
structure ForecastItem where
  Dt : Int
  Main : MainWeather
  Weather : List Weather
  Clouds : Clouds
  Wind : Wind
  Rain : Option Rain
  Snow : Option Snow
  Visibility : Int
  Pop : Float
  Sys : Sys
  DtTxt : String
deriving Repr

/-- Top-level OpenWeather forecast response (struct.go, `WeatherResponse`). -/
structure WeatherResponse where
  Cod : String
  Message : Float
  Cnt : Int
  List : List ForecastItem
  City : CityInfo
deriving Repr

/-- Plugin settings loaded by `models.LoadPluginSettings`; the package
`pkg/models` is not under src/, so only the fields the datasource reads
are modelled: the secure API key (`config.Secrets.ApiKey`). -/
structure SecureSettings where
  ApiKey : String
deriving Repr

/-- Settings wrapper mirroring `config.Secrets` access. -/
structure PluginSettings where
  Secrets : SecureSettings
deriving Repr

/-- An outbound HTTP request (method, URL, headers). -/
structure HttpRequest where
  method : String
  url : String
  headers : List (String × String)
deriving Repr, DecidableEq

/-- Environment outcome of the forecast HTTP exchange in
`GetHistoricalWeather`: request-creation failure (`http.NewRequest`),
network failure (`client.Do`), body-read failure (`io.ReadAll`), or a
status/body response together with the result of `json.Unmarshal` on the
body. -/
inductive FetchOutcome where
  | reqError (msg : String)
  | netError (msg : String)
  | readError (msg : String)
  | response (status : Nat) (body : String) (decoded : Except String WeatherResponse)
deriving Repr

/-- Environment outcome of the health-check probe in `CheckHealth`
(the probe never JSON-decodes the body, and read errors are ignored). -/
inductive ProbeOutcome where
  | reqError (msg : String)
  | netError (msg : String)
  | response (status : Nat) (body : String)
deriving Repr

/-- Errors of `GetHistoricalWeather`, one constructor per `fmt.Errorf`
call site (datasource.go lines 284-363). -/
inductive FetchError where
  | missingApiKey
  | reqError (msg : String)
  | netError (msg : String)
  | readError (msg : String)
  | authFailed401
  | cityNotFound404 (city : String)
  | rateLimit429
  | apiFailed (status : Nat) (body : String)
  | unmarshalError (msg : String)
  | apiErrorCode (cod : String)
  | noData
deriving Repr, DecidableEq

/-- The Go error message text produced at each `fmt.Errorf` call site of
`GetHistoricalWeather`. -/
def errMessage : FetchError → String
  | .missingApiKey => "missing API key: please add a valid OpenWeather API key in the datasource configuration"
  | .reqError m => "error creating request: " ++ m
  | .netError m => "error making request: " ++ m
  | .readError m => "error reading response: " ++ m
  | .authFailed401 => "authentication failed: invalid API key (401). Please verify your API key is correct and active"
  | .cityNotFound404 city => "city not found: " ++ city ++ " (404)"
  | .rateLimit429 => "API rate limit exceeded (429). Please check your subscription plan"
  | .apiFailed status body => "API request failed with status code: " ++ toString status ++ " - " ++ body
  | .unmarshalError m => "error unmarshalling response: " ++ m
  | .apiErrorCode cod => "API returned error code: " ++ cod
  | .noData => "API returned no weather data"

/-- Grafana response status codes used by the datasource
(`backend.StatusBadRequest`, `backend.StatusInternal`). -/
inductive Status where
  | badRequest
  | internal
deriving Repr, DecidableEq

/-- The data frame built by `createDataFrames`: the Go frame holds three
fields (`time`, one named after `qm.Format`, `description`), a name and
custom metadata. -/
structure Frame where
  Name : String
  times : List Int
  valueName : String
  values : List Float
  descriptions : List String
  metaCity : String
  metaParameter : String
deriving Repr

/-- A `backend.DataResponse`: either an error response
(`backend.ErrDataResponse`) or a list of frames. -/
inductive DataResponse where
  | error (status : Status) (message : String)
  | ok (frames : List Frame)
deriving Repr

/-- Health statuses (`backend.HealthStatusOk` / `backend.HealthStatusError`). -/
inductive HealthStatus where
  | ok
  | error
deriving Repr, DecidableEq

/-- A `backend.CheckHealthResult`. -/
structure CheckHealthResult where
  Status : HealthStatus
  Message : String
deriving Repr, DecidableEq

/-- Go's `strings.HasPrefix(s, "http")`, the only prefix test the
datasource performs, modelled on the character list. -/
def startsWithHttp (s : String) : Bool :=
  match s.data with
  | 'h' :: 't' :: 't' :: 'p' :: _ => true
  | _ => false

/-- Base-URL normalization done by `NewDatasource` (datasource.go lines
51-57): empty path defaults to the forecast endpoint, a path without a
protocol gets `https://` prepended. -/
def newDatasourceBaseURL (path : String) : String :=
  if path = "" then "https://api.openweathermap.org/data/2.5/forecast"
  else if startsWithHttp path then path
  else "https://" ++ path

/-- Base-URL fix-up inside `GetHistoricalWeather` (datasource.go lines
288-291). -/
def fixFetchBase (baseURL : String) : String :=
  if startsWithHttp baseURL then baseURL
  else "https://api.openweathermap.org/data/2.5"

/-- The outbound forecast request built by `GetHistoricalWeather`
(datasource.go lines 294-313): a GET with a fixed `units=metric`
parameter and an `Accept: application/json` header. -/
def outboundRequest (baseURL city apiKey : String) : HttpRequest :=
  { method := "GET"
    url := fixFetchBase baseURL ++ "?q=" ++ city ++ "&appid=" ++ apiKey ++ "&units=metric"
    headers := [("Accept", "application/json")] }

/-- `GetHistoricalWeather` (datasource.go lines 280-373).  `net` is the
HTTP environment, consulted at the single outbound request. -/
def GetHistoricalWeather (baseURL city apiKey : String) (qm : queryModel)
    (net : HttpRequest → FetchOutcome) : Except FetchError (List WeatherResponse) :=
  if apiKey = "" then .error .missingApiKey
  else
    match net (outboundRequest baseURL city apiKey) with
    | .reqError m => .error (.reqError m)
    | .netError m => .error (.netError m)
    | .readError m => .error (.readError m)
    | .response status body decoded =>
      if status ≠ 200 then
        if status = 401 then .error .authFailed401
        else if status = 404 then .error (.cityNotFound404 city)
        else if status = 429 then .error (.rateLimit429)
        else .error (.apiFailed status body)
      else
        match decoded with
        | .error m => .error (.unmarshalError m)
        | .ok weatherResponse =>
          if weatherResponse.Cod ≠ "200" then .error (.apiErrorCode weatherResponse.Cod)
          else if weatherResponse.List.length = 0 then .error .noData
          else .ok [weatherResponse]

/-- Value selection of `createDataFrames` (datasource.go lines 204-245):
the switch over `qm.Metric` / `qm.Format`, with Go's zero value `0` for a
nil rain pointer and the listed fall-through defaults. -/
def selectValue (qm : queryModel) (item : ForecastItem) : Float :=
  if qm.Metric = "main" then
    if qm.Format = "temp" then item.Main.Temp
    else if qm.Format = "feels_like" then item.Main.FeelsLike
    else if qm.Format = "temp_min" then item.Main.TempMin
    else if qm.Format = "temp_max" then item.Main.TempMax
    else if qm.Format = "pressure" then item.Main.Pressure
    else if qm.Format = "sea_level" then item.Main.SeaLevel
    else if qm.Format = "grnd_level" then item.Main.GrndLevel
    else if qm.Format = "humidity" then item.Main.Humidity
    else item.Main.Temp
  else if qm.Metric = "wind" then
    if qm.Format = "speed" then item.Wind.Speed
    else if qm.Format = "deg" then item.Wind.Deg
    else if qm.Format = "gust" then item.Wind.Gust
    else item.Wind.Speed
  else if qm.Metric = "clouds" then item.Clouds.All
  else if qm.Metric = "rain" then
    match item.Rain with
    | some r => r.ThreeH
    | none => 0
  else item.Main.Temp

/-- Description extraction of `createDataFrames` (datasource.go lines
249-253): first weather element's description, or `""` if the array is
empty. -/
def descriptionOf (item : ForecastItem) : String :=
  match item.Weather with
  | [] => ""
  | w :: _ => w.Description

/-- `createDataFrames` (datasource.go lines 183-278): fails when there is
no response or the first response's list is empty; otherwise builds one
frame whose value field is named `qm.Format`. -/
def createDataFrames (weatherResponses : List WeatherResponse) (qm : queryModel) :
    Except String Frame :=
  match weatherResponses with
  | [] => .error "no weather data available"
  | wr :: _ =>
    if wr.List.length = 0 then .error "no weather data available"
    else
      .ok { Name := wr.City.Name
            times := wr.List.map (fun item => item.Dt)
            valueName := qm.Format
            values := wr.List.map (fun item => selectValue qm item)
            descriptions := wr.List.map (fun item => descriptionOf item)
            metaCity := wr.City.Name
            metaParameter := qm.Metric ++ "." ++ qm.Format }

/-- `processQuery` (datasource.go lines 132-180).  `parsed` is the result
of `json.Unmarshal` on the query JSON; `settings` is the result of
`models.LoadPluginSettings`; `net` is the HTTP environment. -/
def processQuery (baseURL : String) (parsed : Except String queryModel)
    (settings : Except String PluginSettings)
    (net : HttpRequest → FetchOutcome) : DataResponse :=
  match parsed with
  | .error e => .error .badRequest ("json unmarshal: " ++ e)
  | .ok qm =>
    match settings with
    | .error _ => .error .badRequest "Unable to load datasource settings"
    | .ok config =>
      if qm.City = "" then .error .badRequest "City is required"
      else
        match GetHistoricalWeather baseURL qm.City config.Secrets.ApiKey qm net with
        | .error e => .error .internal ("Failed to fetch weather data: " ++ errMessage e)
        | .ok weatherData =>
          match createDataFrames weatherData qm with
          | .error e => .error .internal ("Failed to create frames: " ++ e)
          | .ok frame => .ok [frame]

/-- The fixed test city of `CheckHealth` (datasource.go line 398). -/
def testCity : String := "London"

/-- Base-URL fix-up inside `CheckHealth` (datasource.go lines 401-404). -/
def fixHealthBase (baseURL : String) : String :=
  if startsWithHttp baseURL then baseURL
  else "https://api.openweathermap.org/data/2.5/forecast"

/-- The probe request built by `CheckHealth` (datasource.go lines
406-415): a GET for the fixed test city with `units=metric` and no extra
headers. -/
def checkHealthRequest (baseURL apiKey : String) : HttpRequest :=
  { method := "GET"
    url := fixHealthBase baseURL ++ "?q=" ++ testCity ++ "&appid=" ++ apiKey ++ "&units=metric"
    headers := [] }

/-- `CheckHealth` (datasource.go lines 375-457).  `settings` is the result
of `models.LoadPluginSettings`; `probe` is the HTTP environment consulted
at the single probe request. -/
def CheckHealth (baseURL : String) (settings : Except String PluginSettings)
    (probe : HttpRequest → ProbeOutcome) : CheckHealthResult :=
  match settings with
  | .error e => { Status := .error, Message := "Unable to load settings: " ++ e }
  | .ok config =>
    if config.Secrets.ApiKey = "" then
      { Status := .error
        Message := "API key is missing. Please configure a valid OpenWeather API key" }
    else
      match probe (checkHealthRequest baseURL config.Secrets.ApiKey) with
      | .reqError m => { Status := .error, Message := "Failed to create test request: " ++ m }
      | .netError m => { Status := .error, Message := "Failed to connect to OpenWeather API: " ++ m }
      | .response status body =>
        if status ≠ 200 then
          if status = 401 then
            { Status := .error
              Message := "Authentication failed: Invalid API key. Please check your API key in the datasource configuration." }
          else
            { Status := .error
              Message := "API returned error: " ++ toString status ++ " - " ++ body }
        else { Status := .ok, Message := "Successfully connected to OpenWeather API" }

/-- The error `GetHistoricalWeather` produces for a given non-200 status,
distinguishing 401, 404 and 429 (datasource.go lines 336-345). -/
def statusError (status : Nat) (city body : String) : FetchError :=
  if status = 401 then .authFailed401
  else if status = 404 then .cityNotFound404 city
  else if status = 429 then .rateLimit429
  else .apiFailed status body

/-- The non-200 branch of `GetHistoricalWeather` as an `Except` value. -/
def fetchStatusError (status : Nat) (city body : String) :
    Except FetchError (List WeatherResponse) :=
  if status = 401 then .error .authFailed401
  else if status = 404 then .error (.cityNotFound404 city)
  else if status = 429 then .error .rateLimit429
  else .error (.apiFailed status body)

/-- The 200 branch of `GetHistoricalWeather`: decode, check `cod`, check
for an empty list. -/
def decodeStep (decoded : Except String WeatherResponse) :
    Except FetchError (List WeatherResponse) :=
  match decoded with
  | .error m => .error (.unmarshalError m)
  | .ok wr =>
    if wr.Cod ≠ "200" then .error (.apiErrorCode wr.Cod)
    else if wr.List.length = 0 then .error .noData
    else .ok [wr]

/-- Modelled from the spec: the outbound URL shape the spec describes,
`<base>?q=<city>&appid=<key>&units=<units>` with the units value taken
from the query.  Used only to compare the spec's claim with the URL the
code actually builds. -/
def claimedOutboundURL (baseURL city apiKey units : String) : String :=
  baseURL ++ "?q=" ++ city ++ "&appid=" ++ apiKey ++ "&units=" ++ units

/-- First seven characters of a string, used to separate the error-message
templates of `GetHistoricalWeather` from one another. -/
def msgHead (s : String) : List Char := s.data.take 7

/- Concrete fixtures for witnesses and counterexamples. -/

/-- A concrete `main` block. -/
def mainA : MainWeather :=
  { Temp := 20.5, FeelsLike := 19.0, TempMin := 18.0, TempMax := 22.0
    Pressure := 1013.0, SeaLevel := 1013.0, GrndLevel := 1000.0
    Humidity := 55.0, TempKf := 0.0 }

/-- A concrete forecast entry with no rain block. -/
def itemA : ForecastItem :=
  { Dt := 1700000000, Main := mainA
    Weather := [{ ID := 800, Main := "Clear", Description := "clear sky", Icon := "01d" }]
    Clouds := { All := 10.0 }, Wind := { Speed := 3.5, Deg := 270.0, Gust := 7.2 }
    Rain := none, Snow := none, Visibility := 10000, Pop := 0.1
    Sys := { Pod := "d" }, DtTxt := "2023-11-14 12:00:00" }

/-- A concrete city record. -/
def cityA : CityInfo :=
  { ID := 2643743, Name := "London", Coord := { Lat := 51.5, Lon := -0.12 }
    Country := "GB", Population := 1000000, Timezone := 0
    Sunrise := 1699990000, Sunset := 1700020000 }

/-- A concrete successful forecast response with one entry. -/
def wrA : WeatherResponse :=
  { Cod := "200", Message := 0.0, Cnt := 1, List := [itemA], City := cityA }

/-- A concrete query selecting `main.humidity`. -/
def qmHum : queryModel :=
  { City := "London", Format := "humidity", Metric := "main", Units := "metric" }

/-- A concrete query selecting `rain.3h`. -/
def qmRainQ : queryModel :=
  { City := "Berlin", Format := "3h", Metric := "rain", Units := "metric" }

/-- A concrete query with an empty city. -/
def qmEmptyCity : queryModel :=
  { City := "", Format := "temp", Metric := "main", Units := "metric" }

/-- A concrete query whose units value is `imperial`. -/
def qmImperial : queryModel :=
  { City := "Paris", Format := "temp", Metric := "main", Units := "imperial" }

/-- A concrete query for Izmir. -/
def qmIzmir : queryModel :=
  { City := "Izmir", Format := "temp", Metric := "main", Units := "metric" }

/-- Concrete settings with a non-empty API key. -/
def cfgK : PluginSettings := { Secrets := { ApiKey := "k" } }

/-- Concrete settings with an empty API key. -/
def cfgEmpty : PluginSettings := { Secrets := { ApiKey := "" } }

/-- An environment answering every request with a 200 response whose body
decodes to `wrA`. -/
def netOk : HttpRequest → FetchOutcome := fun _ => .response 200 "body" (.ok wrA)

/-- An environment answering every request with a 500 response and an
undecodable body. -/
def net500 : HttpRequest → FetchOutcome := fun _ => .response 500 "oops" (.error "bad json")

/-- A probe environment answering every request with HTTP 200. -/
def probeOk : HttpRequest → ProbeOutcome := fun _ => .response 200 "okbody"

/-- The frame `createDataFrames` builds from `wrA` for `qmHum`. -/
def frameA : Frame :=
  { Name := "London", times := [1700000000], valueName := "humidity"
    values := [55.0], descriptions := ["clear sky"]
    metaCity := "London", metaParameter := "main.humidity" }

/-- The default base URL (the forecast endpoint). -/
def defaultBaseURL : String := "https://api.openweathermap.org/data/2.5/forecast"

/- Helper lemmas shared by the claim theorems. -/

/-- Evaluation of `createDataFrames` on a non-empty first list. -/
theorem createDataFrames_cons (wr : WeatherResponse) (rest : List WeatherResponse)
    (qm : queryModel) (hl : wr.List ≠ []) :
    createDataFrames (wr :: rest) qm =
      .ok { Name := wr.City.Name
            times := wr.List.map (fun item => item.Dt)
            valueName := qm.Format
            values := wr.List.map (fun item => selectValue qm item)
            descriptions := wr.List.map (fun item => descriptionOf item)
            metaCity := wr.City.Name
            metaParameter := qm.Metric ++ "." ++ qm.Format } := by
  rw [createDataFrames, if_neg (fun h0 => hl (List.length_eq_zero.mp h0))]

/-- Inversion for `createDataFrames`: a successful frame is exactly the
one built from the first response. -/
theorem createDataFrames_ok (wrs : List WeatherResponse) (qm : queryModel)
    (f : Frame) (wr : WeatherResponse) (h : createDataFrames wrs qm = .ok f)
    (hw : wrs.head? = some wr) :
    wr.List ≠ [] ∧
    f = { Name := wr.City.Name
          times := wr.List.map (fun item => item.Dt)
          valueName := qm.Format
          values := wr.List.map (fun item => selectValue qm item)
          descriptions := wr.List.map (fun item => descriptionOf item)
          metaCity := wr.City.Name
          metaParameter := qm.Metric ++ "." ++ qm.Format } := by
  cases wrs with
  | nil => simp [createDataFrames] at h
  | cons wr0 rest =>
    have h1 : wr = wr0 := by
      have h2 : wr0 = wr := by simpa using hw
      exact h2.symm
    subst h1
    by_cases hl : wr.List = []
    · rw [createDataFrames, if_pos (by simp [hl])] at h
      exact absurd h (by simp)
    · rw [createDataFrames_cons wr rest qm hl] at h
      refine ⟨hl, ?_⟩
      injection h with h
      exact h.symm

/-- `fetchStatusError` is the `statusError` classification wrapped in
`Except.error`. -/
theorem fetchStatusError_eq (status : Nat) (city body : String) :
    fetchStatusError status city body = .error (statusError status city body) := by
  rw [fetchStatusError, statusError]
  split_ifs <;> rfl

/-- Evaluation of `GetHistoricalWeather` when the environment answers
with a status/body response. -/
theorem GetHistoricalWeather_response (baseURL city apiKey : String)
    (qm : queryModel) (net : HttpRequest → FetchOutcome) (status : Nat)
    (body : String) (decoded : Except String WeatherResponse)
    (hk : apiKey ≠ "")
    (hnet : net (outboundRequest baseURL city apiKey) = .response status body decoded) :
    GetHistoricalWeather baseURL city apiKey qm net =
      if status ≠ 200 then fetchStatusError status city body
      else decodeStep decoded := by
  rw [GetHistoricalWeather, if_neg hk, hnet]
  rfl

/-- Evaluation of `GetHistoricalWeather` on a request-creation, network,
or read failure. -/
theorem GetHistoricalWeather_failure (baseURL city apiKey : String)
    (qm : queryModel) (net : HttpRequest → FetchOutcome) (m : String)
    (hk : apiKey ≠ "") :
    (net (outboundRequest baseURL city apiKey) = .reqError m →
      GetHistoricalWeather baseURL city apiKey qm net = .error (.reqError m)) ∧
    (net (outboundRequest baseURL city apiKey) = .netError m →
      GetHistoricalWeather baseURL city apiKey qm net = .error (.netError m)) ∧
    (net (outboundRequest baseURL city apiKey) = .readError m →
      GetHistoricalWeather baseURL city apiKey qm net = .error (.readError m)) := by
  refine ⟨?_, ?_, ?_⟩ <;> intro hnet <;> rw [GetHistoricalWeather, if_neg hk, hnet]

/-- Inversion for `GetHistoricalWeather`: success happens exactly on a
non-empty API key and a 200 response whose body decodes to a response
with `cod = "200"` and a non-empty list. -/
theorem GetHistoricalWeather_ok_iff (baseURL city apiKey : String)
    (qm : queryModel) (net : HttpRequest → FetchOutcome)
    (out : List WeatherResponse) :
    GetHistoricalWeather baseURL city apiKey qm net = .ok out ↔
    apiKey ≠ "" ∧ ∃ body wr,
      net (outboundRequest baseURL city apiKey) = .response 200 body (.ok wr) ∧
      wr.Cod = "200" ∧ wr.List ≠ [] ∧ out = [wr] := by
  constructor
  · intro h
    by_cases hk : apiKey = ""
    · simp [GetHistoricalWeather, hk] at h
    · refine ⟨hk, ?_⟩
      rcases hnet : net (outboundRequest baseURL city apiKey) with m | m | m | ⟨status, body, decoded⟩
      · rw [(GetHistoricalWeather_failure baseURL city apiKey qm net m hk).1 hnet] at h
        exact absurd h (by simp)
      · rw [(GetHistoricalWeather_failure baseURL city apiKey qm net m hk).2.1 hnet] at h
        exact absurd h (by simp)
      · rw [(GetHistoricalWeather_failure baseURL city apiKey qm net m hk).2.2 hnet] at h
        exact absurd h (by simp)
      · rw [GetHistoricalWeather_response baseURL city apiKey qm net status body decoded hk hnet] at h
        by_cases hst : status = 200
        · subst hst
          rw [if_neg (by simp)] at h
          cases decoded with
          | error m => simp [decodeStep] at h
          | ok wr =>
            rw [decodeStep] at h
            by_cases hcod : wr.Cod = "200"
            · rw [if_neg (by simp [hcod])] at h
              by_cases hlen : wr.List.length = 0
              · rw [if_pos hlen] at h
                exact absurd h (by simp)
              · rw [if_neg hlen] at h
                injection h with h
                exact ⟨body, wr, rfl, hcod, fun he => hlen (by simp [he]), h.symm⟩
            · rw [if_pos (by simp [hcod])] at h
              exact absurd h (by simp)
        · rw [if_pos (by simp [hst]), fetchStatusError] at h
          split_ifs at h
  · rintro ⟨hk, body, wr, hnet, hcod, hlen, rfl⟩
    rw [GetHistoricalWeather_response baseURL city apiKey qm net 200 body (.ok wr) hk hnet]
    rw [if_neg (by simp), decodeStep]
    rw [if_neg (by simp [hcod])]
    rw [if_neg (fun h0 => hlen (List.length_eq_zero.mp h0))]

/-- C3: a settings object with an empty secure API key always yields an
error-status health check, whatever the base URL and probe environment. -/
theorem c3_empty_api_key_health_error (baseURL : String) (cfg : PluginSettings)
    (h : cfg.Secrets.ApiKey = "") (probe : HttpRequest → ProbeOutcome) :
    (CheckHealth baseURL (.ok cfg) probe).Status = .error := by
  simp [CheckHealth, h]

/-- Witness for C3 at concrete settings with an empty key and a probe
that would answer 200. -/
theorem c3_empty_api_key_health_error_witness :
    (CheckHealth defaultBaseURL (.ok cfgEmpty) probeOk).Status = .error :=
  c3_empty_api_key_health_error defaultBaseURL cfgEmpty rfl probeOk

/-- C8: invalid selectors never fail: a nil rain block yields 0, an
unrecognized metric yields the main temperature, unrecognized formats
under `main` and `wind` yield the main temperature and the wind speed,
and `createDataFrames` succeeds on non-empty data for every selector. -/
theorem c8_selector_defaults (qm : queryModel) (item : ForecastItem) :
    (qm.Metric = "rain" → item.Rain = none → selectValue qm item = 0) ∧
    (qm.Metric ∉ (["main", "wind", "clouds", "rain"] : List String) →
      selectValue qm item = item.Main.Temp) ∧
    (qm.Metric = "main" →
      qm.Format ∉ (["temp", "feels_like", "temp_min", "temp_max", "pressure",
        "sea_level", "grnd_level", "humidity"] : List String) →
      selectValue qm item = item.Main.Temp) ∧
    (qm.Metric = "wind" →
      qm.Format ∉ (["speed", "deg", "gust"] : List String) →
      selectValue qm item = item.Wind.Speed) ∧
    (∀ wr rest, wr.List ≠ [] →
      ∃ f, createDataFrames (wr :: rest) qm = .ok f) := by
  refine ⟨?_, ?_, ?_, ?_, ?_⟩
  · intro hm hr
    simp [selectValue, hm, hr]
  · intro hm
    simp only [List.mem_cons, List.not_mem_nil, or_false, not_or] at hm
    obtain ⟨h1, h2, h3, h4⟩ := hm
    simp [selectValue, h1, h2, h3, h4]
  · intro hm hf
    simp only [List.mem_cons, List.not_mem_nil, or_false, not_or] at hf
    obtain ⟨g1, g2, g3, g4, g5, g6, g7, g8⟩ := hf
    simp [selectValue, hm, g1, g2, g3, g4, g5, g6, g7, g8]
  · intro hm hf
    simp only [List.mem_cons, List.not_mem_nil, or_false, not_or] at hf
    obtain ⟨g1, g2, g3⟩ := hf
    simp [selectValue, hm, g1, g2, g3]
  · intro wr rest hl
    exact ⟨_, createDataFrames_cons wr rest qm hl⟩

/-- Witness for C8 at a concrete rain query over an entry with no rain
block. -/
theorem c8_selector_defaults_witness : selectValue qmRainQ itemA = 0 :=
  (c8_selector_defaults qmRainQ itemA).1 rfl rfl

/-- C9: the three columns of a successful frame all have the length of
the first response's forecast list. -/
theorem c9_frame_columns_aligned (wrs : List WeatherResponse) (qm : queryModel)
    (f : Frame) (h : createDataFrames wrs qm = .ok f) (wr : WeatherResponse)
    (hw : wrs.head? = some wr) :
    f.times.length = wr.List.length ∧ f.values.length = wr.List.length ∧
    f.descriptions.length = wr.List.length := by
  obtain ⟨-, rfl⟩ := createDataFrames_ok wrs qm f wr h hw
  simp

/-- Witness for C9 at the concrete one-entry response. -/
theorem c9_frame_columns_aligned_witness :
    frameA.times.length = wrA.List.length ∧
    frameA.values.length = wrA.List.length ∧
    frameA.descriptions.length = wrA.List.length :=
  c9_frame_columns_aligned [wrA] qmHum frameA rfl wrA rfl

/-- C10: a parsed query with an empty city yields a BadRequest error
response with message "City is required", and the response does not
depend on the HTTP environment (no outbound request is consulted). -/
theorem c10_empty_city_bad_request (baseURL : String) (qm : queryModel)
    (h : qm.City = "") (cfg : PluginSettings)
    (net : HttpRequest → FetchOutcome) :
    processQuery baseURL (.ok qm) (.ok cfg) net
      = .error .badRequest "City is required" ∧
    ∀ net2 : HttpRequest → FetchOutcome,
      processQuery baseURL (.ok qm) (.ok cfg) net
        = processQuery baseURL (.ok qm) (.ok cfg) net2 := by
  constructor
  · simp [processQuery, h]
  · intro net2
    simp [processQuery, h]

/-- Witness for C10 at a concrete empty-city query against an environment
that would fail if consulted. -/
theorem c10_empty_city_bad_request_witness :
    processQuery defaultBaseURL (.ok qmEmptyCity) (.ok cfgK) net500
      = .error .badRequest "City is required" :=
  (c10_empty_city_bad_request defaultBaseURL qmEmptyCity rfl cfgK net500).1

/-- C1: for every recognized (metric, format) selector pair, the value
column of a successful frame holds, at each index, exactly the named
numeric field of the corresponding forecast entry. -/
theorem c1_value_column_selects_named_field (wrs : List WeatherResponse)
    (qm : queryModel) (f : Frame) (h : createDataFrames wrs qm = .ok f)
    (wr : WeatherResponse) (hw : wrs.head? = some wr) (i : Nat)
    (hi : i < wr.List.length) (item : ForecastItem)
    (hitem : wr.List.get ⟨i, hi⟩ = item) :
    (qm.Metric = "main" → qm.Format = "temp" →
      f.values[i]? = some item.Main.Temp) ∧
    (qm.Metric = "main" → qm.Format = "feels_like" →
      f.values[i]? = some item.Main.FeelsLike) ∧
    (qm.Metric = "main" → qm.Format = "temp_min" →
      f.values[i]? = some item.Main.TempMin) ∧
    (qm.Metric = "main" → qm.Format = "temp_max" →
      f.values[i]? = some item.Main.TempMax) ∧
    (qm.Metric = "main" → qm.Format = "pressure" →
      f.values[i]? = some item.Main.Pressure) ∧
    (qm.Metric = "main" → qm.Format = "sea_level" →
      f.values[i]? = some item.Main.SeaLevel) ∧
    (qm.Metric = "main" → qm.Format = "grnd_level" →
      f.values[i]? = some item.Main.GrndLevel) ∧
    (qm.Metric = "main" → qm.Format = "humidity" →
      f.values[i]? = some item.Main.Humidity) ∧
    (qm.Metric = "wind" → qm.Format = "speed" →
      f.values[i]? = some item.Wind.Speed) ∧
    (qm.Metric = "wind" → qm.Format = "deg" →
      f.values[i]? = some item.Wind.Deg) ∧
    (qm.Metric = "wind" → qm.Format = "gust" →
      f.values[i]? = some item.Wind.Gust) ∧
    (qm.Metric = "clouds" → f.values[i]? = some item.Clouds.All) ∧
    (∀ r : Rain, qm.Metric = "rain" → item.Rain = some r →
      f.values[i]? = some r.ThreeH) := by
  obtain ⟨-, rfl⟩ := createDataFrames_ok wrs qm f wr h hw
  have hv : (wr.List.map (fun it => selectValue qm it))[i]?
      = some (selectValue qm item) := by
    rw [List.getElem?_map, List.getElem?_eq_getElem hi]
    simp [← hitem, List.get_eq_getElem]
  refine ⟨?_, ?_, ?_, ?_, ?_, ?_, ?_, ?_, ?_, ?_, ?_, ?_, ?_⟩ <;>
    first
    | (intro hm hf
       simp only [hv]
       simp [selectValue, hm, hf])
    | (intro hm
       simp only [hv]
       simp [selectValue, hm])
    | (intro r hm hr
       simp only [hv]
       simp [selectValue, hm, hr])

/-- Witness for C1: a `main.humidity` query over the concrete one-entry
response selects the entry's humidity field. -/
theorem c1_value_column_selects_named_field_witness :
    createDataFrames [wrA] qmHum = .ok frameA ∧
    frameA.values[0]? = some 55.0 := by
  have h := c1_value_column_selects_named_field [wrA] qmHum frameA rfl wrA rfl 0
    (by decide) itemA rfl
  exact ⟨rfl, (h.2.2.2.2.2.2.2.1 rfl rfl).trans rfl⟩

/-- C4 counterexample: the claim says the outbound URL carries the units
value supplied in the query, but the code hardcodes `units=metric`; for a
query with units `imperial` the built URL differs from the claimed one. -/
theorem c4_counterexample_units_hardcoded :
    qmImperial.Units = "imperial" ∧
    (outboundRequest defaultBaseURL "Paris" "k").url
      ≠ claimedOutboundURL defaultBaseURL "Paris" "k" qmImperial.Units ∧
    (outboundRequest defaultBaseURL "Paris" "k").url
      = claimedOutboundURL defaultBaseURL "Paris" "k" "metric" :=
  ⟨rfl, by decide, by decide⟩

/-- C4 (amended): the outbound request of `GetHistoricalWeather` is a GET
on the configured base URL (defaulting to the forecast endpoint) with
query parameters `q=<city>`, `appid=<key>` and always `units=metric`; the
environment is consulted only at that request. -/
theorem c4_outbound_request_shape (baseURL city apiKey : String)
    (qm : queryModel) (net net2 : HttpRequest → FetchOutcome)
    (hb : startsWithHttp baseURL = true)
    (hnet : net (outboundRequest baseURL city apiKey)
      = net2 (outboundRequest baseURL city apiKey)) :
    (outboundRequest baseURL city apiKey).method = "GET" ∧
    (outboundRequest baseURL city apiKey).url
      = baseURL ++ "?q=" ++ city ++ "&appid=" ++ apiKey ++ "&units=metric" ∧
    newDatasourceBaseURL "" = "https://api.openweathermap.org/data/2.5/forecast" ∧
    GetHistoricalWeather baseURL city apiKey qm net
      = GetHistoricalWeather baseURL city apiKey qm net2 := by
  refine ⟨rfl, ?_, rfl, ?_⟩
  · simp [outboundRequest, fixFetchBase, hb]
  · rw [GetHistoricalWeather, GetHistoricalWeather, hnet]

/-- Witness for C4's amended theorem at the default base URL. -/
theorem c4_outbound_request_shape_witness :
    (outboundRequest defaultBaseURL "Paris" "k").url
      = defaultBaseURL ++ "?q=" ++ "Paris" ++ "&appid=" ++ "k" ++ "&units=metric" :=
  (c4_outbound_request_shape defaultBaseURL "Paris" "k" qmImperial net500 net500
    (by decide) rfl).2.1

/-- Inversion for `CheckHealth`: the Ok status happens exactly on loadable
settings, a non-empty API key, and a 200 probe response. -/
theorem CheckHealth_ok_iff (baseURL : String)
    (settings : Except String PluginSettings)
    (probe : HttpRequest → ProbeOutcome) :
    (CheckHealth baseURL settings probe).Status = .ok ↔
    ∃ cfg body, settings = .ok cfg ∧ cfg.Secrets.ApiKey ≠ "" ∧
      probe (checkHealthRequest baseURL cfg.Secrets.ApiKey)
        = .response 200 body := by
  cases settings with
  | error e => simp [CheckHealth]
  | ok cfg =>
    by_cases hk : cfg.Secrets.ApiKey = ""
    · simp [CheckHealth, hk]
    · rcases hp : probe (checkHealthRequest baseURL cfg.Secrets.ApiKey)
        with m | m | ⟨status, body⟩
      · rw [CheckHealth, if_neg hk, hp]
        simp [hp, hk]
      · rw [CheckHealth, if_neg hk, hp]
        simp [hp, hk]
      · rw [CheckHealth, if_neg hk, hp]
        by_cases hst : status = 200
        · subst hst
          simp [hk, hp]
        · by_cases h401 : status = 401 <;> simp [hst, h401, hk, hp]

/-- C7: with a configured API key, `CheckHealth` issues one GET probe for
the fixed test city London, does not depend on the environment anywhere
else, and reports Ok exactly when the probe answers HTTP 200. -/
theorem c7_health_probe (baseURL : String) (cfg : PluginSettings)
    (probe probe2 : HttpRequest → ProbeOutcome)
    (hk : cfg.Secrets.ApiKey ≠ "") :
    (checkHealthRequest baseURL cfg.Secrets.ApiKey).method = "GET" ∧
    testCity = "London" ∧
    (checkHealthRequest baseURL cfg.Secrets.ApiKey).url
      = fixHealthBase baseURL ++ "?q=" ++ testCity ++ "&appid="
        ++ cfg.Secrets.ApiKey ++ "&units=metric" ∧
    (probe (checkHealthRequest baseURL cfg.Secrets.ApiKey)
        = probe2 (checkHealthRequest baseURL cfg.Secrets.ApiKey) →
      CheckHealth baseURL (.ok cfg) probe = CheckHealth baseURL (.ok cfg) probe2) ∧
    ((CheckHealth baseURL (.ok cfg) probe).Status = .ok ↔
      ∃ body, probe (checkHealthRequest baseURL cfg.Secrets.ApiKey)
        = .response 200 body) := by
  refine ⟨rfl, rfl, rfl, ?_, ?_⟩
  · intro hp
    rw [CheckHealth, CheckHealth, hp]
  · rw [CheckHealth_ok_iff]
    constructor
    · rintro ⟨cfg', b, hcc, hk', hp⟩
      obtain rfl : cfg' = cfg := by
        injection hcc with h1
        exact h1.symm
      exact ⟨b, hp⟩
    · rintro ⟨b, hp⟩
      exact ⟨cfg, b, rfl, hk, hp⟩

/-- Witness for C7: with a concrete key and a probe answering 200, the
health check reports Ok. -/
theorem c7_health_probe_witness :
    (CheckHealth defaultBaseURL (.ok cfgK) probeOk).Status = .ok :=
  (c7_health_probe defaultBaseURL cfgK probeOk probeOk
    (by decide)).2.2.2.2.mpr ⟨"okbody", rfl⟩

/-- C6: every successful query response is a single frame whose time
column lists the forecast entries' timestamps in list order and whose
value column is named after the requested format, alongside the
description column. -/
theorem c6_single_frame_shape (baseURL : String) (qm : queryModel)
    (cfg : PluginSettings) (net : HttpRequest → FetchOutcome)
    (fs : List Frame)
    (h : processQuery baseURL (.ok qm) (.ok cfg) net = .ok fs) :
    ∃ f wr body,
      net (outboundRequest baseURL qm.City cfg.Secrets.ApiKey)
        = .response 200 body (.ok wr) ∧
      fs = [f] ∧
      f.times = wr.List.map (fun item => item.Dt) ∧
      f.valueName = qm.Format ∧
      f.Name = wr.City.Name := by
  simp only [processQuery] at h
  by_cases hc : qm.City = ""
  · rw [if_pos hc] at h
    exact absurd h (by simp)
  · rw [if_neg hc] at h
    rcases hgw : GetHistoricalWeather baseURL qm.City cfg.Secrets.ApiKey qm net
      with e | out
    · simp [hgw] at h
    · obtain ⟨hk, body, wr, hnet, hcod, hlen, rfl⟩ :=
        (GetHistoricalWeather_ok_iff _ _ _ _ _ _).mp hgw
      rw [hgw] at h
      simp only [createDataFrames_cons wr [] qm hlen] at h
      have h2 : ({ Name := wr.City.Name
                   times := wr.List.map (fun item => item.Dt)
                   valueName := qm.Format
                   values := wr.List.map (fun item => selectValue qm item)
                   descriptions := wr.List.map (fun item => descriptionOf item)
                   metaCity := wr.City.Name
                   metaParameter := qm.Metric ++ "." ++ qm.Format } : Frame) :: ([] : List Frame) = fs := by
        simpa using h
      subst h2
      exact ⟨_, wr, body, hnet, rfl, rfl, rfl, rfl⟩

/-- Witness for C6 at the concrete humidity query: the emitted frame's
value column is named after the requested format. -/
theorem c6_single_frame_shape_witness : frameA.valueName = qmHum.Format := by
  obtain ⟨f, wr, body, hn, hfs, ht, hv, hname⟩ :=
    c6_single_frame_shape defaultBaseURL qmHum cfgK netOk [frameA] rfl
  obtain rfl : frameA = f := by simpa using hfs
  exact hv

/-- Strings with different seven-character heads differ. -/
theorem ne_of_msgHead_ne (s t : String) (h : msgHead s ≠ msgHead t) : s ≠ t :=
  fun he => h (he ▸ rfl)

/-- Head of an append whose first part is at least seven characters. -/
theorem take7_append (l1 l2 : List Char) (h : 7 ≤ l1.length) :
    (l1 ++ l2).take 7 = l1.take 7 :=
  List.take_append_of_le_length h

/-- The city-not-found message starts with "city no" for every city. -/
theorem msgHead_cityNotFound (c : String) :
    msgHead (errMessage (.cityNotFound404 c)) = "city no".data := by
  have hpre : ("city not found: " : String).data.length = 16 := by decide
  show (("city not found: " ++ c ++ " (404)" : String)).data.take 7 = _
  rw [String.data_append, String.data_append]
  rw [take7_append _ _ (by rw [List.length_append, hpre]; omega)]
  rw [take7_append _ _ (by rw [hpre]; omega)]
  decide

/-- The generic API-failure message starts with "API req" for every
status and body. -/
theorem msgHead_apiFailed (status : Nat) (b : String) :
    msgHead (errMessage (.apiFailed status b)) = "API req".data := by
  have hpre : ("API request failed with status code: " : String).data.length = 37 := by
    decide
  show (("API request failed with status code: " ++ toString status
    ++ " - " ++ b : String)).data.take 7 = _
  rw [String.data_append, String.data_append, String.data_append]
  rw [take7_append _ _ (by
    rw [List.length_append, List.length_append, hpre]; omega)]
  rw [take7_append _ _ (by rw [List.length_append, hpre]; omega)]
  rw [take7_append _ _ (by rw [hpre]; omega)]
  decide

/-- C5: on any non-200 status, `GetHistoricalWeather` returns the error
classifying 401, 404 and 429 apart from all other statuses, the error is
surfaced directly as a failed query, and the four message templates are
pairwise distinct. -/
theorem c5_non_200_distinguished (baseURL : String) (qm : queryModel)
    (cfg : PluginSettings) (net : HttpRequest → FetchOutcome) (status : Nat)
    (body : String) (decoded : Except String WeatherResponse)
    (hk : cfg.Secrets.ApiKey ≠ "") (hc : qm.City ≠ "")
    (hnet : net (outboundRequest baseURL qm.City cfg.Secrets.ApiKey)
      = .response status body decoded)
    (hs : status ≠ 200) :
    GetHistoricalWeather baseURL qm.City cfg.Secrets.ApiKey qm net
      = .error (statusError status qm.City body) ∧
    processQuery baseURL (.ok qm) (.ok cfg) net
      = .error .internal ("Failed to fetch weather data: "
          ++ errMessage (statusError status qm.City body)) ∧
    errMessage .authFailed401 ≠ errMessage (.cityNotFound404 qm.City) ∧
    errMessage .authFailed401 ≠ errMessage .rateLimit429 ∧
    errMessage .authFailed401 ≠ errMessage (.apiFailed status body) ∧
    errMessage (.cityNotFound404 qm.City) ≠ errMessage .rateLimit429 ∧
    errMessage (.cityNotFound404 qm.City) ≠ errMessage (.apiFailed status body) ∧
    errMessage .rateLimit429 ≠ errMessage (.apiFailed status body) := by
  have hgw : GetHistoricalWeather baseURL qm.City cfg.Secrets.ApiKey qm net
      = .error (statusError status qm.City body) := by
    rw [GetHistoricalWeather_response baseURL qm.City cfg.Secrets.ApiKey qm net
      status body decoded hk hnet]
    rw [if_pos hs, fetchStatusError_eq]
  refine ⟨hgw, ?_, ?_, ?_, ?_, ?_, ?_, ?_⟩
  · simp only [processQuery]
    rw [if_neg hc, hgw]
  · exact ne_of_msgHead_ne _ _ (by rw [msgHead_cityNotFound]; decide)
  · decide
  · exact ne_of_msgHead_ne _ _ (by rw [msgHead_apiFailed]; decide)
  · exact ne_of_msgHead_ne _ _ (by rw [msgHead_cityNotFound]; decide)
  · exact ne_of_msgHead_ne _ _ (by rw [msgHead_cityNotFound, msgHead_apiFailed]; decide)
  · exact ne_of_msgHead_ne _ _ (by rw [msgHead_apiFailed]; decide)

/-- Witness for C5: a concrete 500 response yields the generic
status-code error. -/
theorem c5_non_200_distinguished_witness :
    GetHistoricalWeather defaultBaseURL "Izmir" "k" qmIzmir net500
      = .error (.apiFailed 500 "oops") := by
  have h := c5_non_200_distinguished defaultBaseURL qmIzmir cfgK net500 500
    "oops" (.error "bad json") (by decide) (by decide) rfl (by decide)
  exact h.1.trans (congrArg Except.error
    (by decide : statusError 500 qmIzmir.City "oops" = .apiFailed 500 "oops"))

/-- C2 counterexample: a query whose JSON unmarshals fine, with a
non-empty API key, against an environment always answering HTTP 200 with
a decodable body, still produces an error result because its city is
empty — an error condition outside the claim's list of four. -/
theorem c2_counterexample_empty_city_errors :
    processQuery defaultBaseURL (.ok qmEmptyCity) (.ok cfgK) netOk
      = .error .badRequest "City is required" ∧
    cfgK.Secrets.ApiKey ≠ "" ∧
    netOk (outboundRequest defaultBaseURL qmEmptyCity.City cfgK.Secrets.ApiKey)
      = .response 200 "body" (.ok wrA) ∧
    wrA.Cod = "200" ∧ wrA.List ≠ [] :=
  ⟨rfl, by decide, rfl, rfl, by simp [wrA]⟩

/-- C2 (amended): a query result is non-error exactly when the query JSON
unmarshals, the settings load, the API key and city are non-empty, the
API answers HTTP 200 with a body that decodes to `cod = "200"` and a
non-empty forecast list; a health check is Ok exactly when the settings
load, the key is non-empty and the probe answers HTTP 200.  Every other
condition — including an empty city, a `cod` other than "200", an empty
forecast list, and request/network/read failures — is an error. -/
theorem c2_error_conditions (baseURL : String)
    (parsed : Except String queryModel)
    (settings : Except String PluginSettings)
    (net : HttpRequest → FetchOutcome)
    (probe : HttpRequest → ProbeOutcome) :
    ((∃ fs, processQuery baseURL parsed settings net = .ok fs) ↔
      ∃ qm cfg body wr,
        parsed = .ok qm ∧ settings = .ok cfg ∧
        cfg.Secrets.ApiKey ≠ "" ∧ qm.City ≠ "" ∧
        net (outboundRequest baseURL qm.City cfg.Secrets.ApiKey)
          = .response 200 body (.ok wr) ∧
        wr.Cod = "200" ∧ wr.List ≠ []) ∧
    ((CheckHealth baseURL settings probe).Status = .ok ↔
      ∃ cfg body, settings = .ok cfg ∧ cfg.Secrets.ApiKey ≠ "" ∧
        probe (checkHealthRequest baseURL cfg.Secrets.ApiKey)
          = .response 200 body) := by
  refine ⟨?_, CheckHealth_ok_iff baseURL settings probe⟩
  constructor
  · rintro ⟨fs, hfs⟩
    cases parsed with
    | error e => simp [processQuery] at hfs
    | ok qm =>
      cases settings with
      | error e => simp [processQuery] at hfs
      | ok cfg =>
        simp only [processQuery] at hfs
        by_cases hc : qm.City = ""
        · rw [if_pos hc] at hfs
          exact absurd hfs (by simp)
        · rw [if_neg hc] at hfs
          rcases hgw : GetHistoricalWeather baseURL qm.City cfg.Secrets.ApiKey qm net
            with e | out
          · simp [hgw] at hfs
          · obtain ⟨hk, body, wr, hnet, hcod, hlen, rfl⟩ :=
              (GetHistoricalWeather_ok_iff _ _ _ _ _ _).mp hgw
            exact ⟨qm, cfg, body, wr, rfl, rfl, hk, hc, hnet, hcod, hlen⟩
  · rintro ⟨qm, cfg, body, wr, rfl, rfl, hk, hc, hnet, hcod, hlen⟩
    have hgw : GetHistoricalWeather baseURL qm.City cfg.Secrets.ApiKey qm net
        = .ok [wr] :=
      (GetHistoricalWeather_ok_iff _ _ _ _ _ _).mpr
        ⟨hk, body, wr, hnet, hcod, hlen, rfl⟩
    refine ⟨[{ Name := wr.City.Name
               times := wr.List.map (fun item => item.Dt)
               valueName := qm.Format
               values := wr.List.map (fun item => selectValue qm item)
               descriptions := wr.List.map (fun item => descriptionOf item)
               metaCity := wr.City.Name
               metaParameter := qm.Metric ++ "." ++ qm.Format }], ?_⟩
    simp only [processQuery]
    rw [if_neg hc, hgw]
    simp only [createDataFrames_cons wr [] qm hlen]
